import Mathlib

/-
Shallow embedding of src/progressbar/widgets.py (text progress bar widget
library) and proofs about the behaviour its specification claims.

Modelling conventions:
 - Python ints are Int (or Nat where the code only meets non-negative data),
   Python floats are exact rationals; timestamps are rational seconds.
 - Fallible code returns Option / Except; an uncaught Python exception is
   Option.none / Except.error.
 - Strings that the bar manipulates character-by-character are List Char.
-/

namespace PyProgress

/-! ### Python value and %-formatting model (FormatWidgetMixin, widgets.py 34-62) -/

/-- A value stored in the `data` mapping handed to widgets: Python int, float
(modelled as an exact rational), str, or None. -/
inductive PyVal where
  | int (n : Int)
  | rat (q : ℚ)
  | str (s : String)
  | pyNone
deriving DecidableEq

/-- Python int(q): truncation toward zero. -/
def pyTrunc (q : ℚ) : Int := if 0 ≤ q then ⌊q⌋ else -⌊-q⌋

/-- Two-digit zero padding, as datetime.timedelta's repr uses for minutes and
seconds. -/
def pad2 (n : Int) : String := if n < 10 then "0" ++ toString n else toString n

/-- str(datetime.timedelta(seconds=n)) for an integer number of seconds: the
core of Timer.format_time (widgets.py 122-125). timedelta normalizes with
floor division, prints hours unpadded, and prefixes a day count when
non-zero. -/
def timedeltaStr (n : Int) : String :=
  let days := Int.fdiv n 86400
  let rem := Int.fmod n 86400
  let hours := Int.fdiv rem 3600
  let minutes := Int.fdiv (Int.fmod rem 3600) 60
  let seconds := Int.fmod rem 60
  let hms := toString hours ++ ":" ++ pad2 minutes ++ ":" ++ pad2 seconds
  if days = 0 then hms
  else if days = 1 ∨ days = -1 then toString days ++ " day, " ++ hms
  else toString days ++ " days, " ++ hms

/-- Timer.format_time: str(timedelta(seconds=int(seconds))). -/
def formatTime (seconds : ℚ) : String := timedeltaStr (pyTrunc seconds)

/-- str() of a PyVal, as the %s conversion applies it. The decimal repr of a
Python float is abstracted to the exact rational's display; no claim below
depends on it. -/
def pyStr : PyVal → String
  | .int n => toString n
  | .rat q => toString q
  | .str s => s
  | .pyNone => "None"

/-- The %d conversion: ints print directly, floats truncate toward zero,
anything else raises TypeError (none). -/
def convInt : PyVal → Option String
  | .int n => some (toString n)
  | .rat q => some (toString (pyTrunc q))
  | .str _ => Option.none
  | .pyNone => Option.none

/-- The %-conversions exercised by this repository's format strings. -/
inductive Conv where
  | s
  | d
deriving DecidableEq

/-- One piece of a parsed format string: literal text or a %(key)c named
reference. -/
inductive TItem where
  | lit (text : String)
  | ref (key : String) (conv : Conv)
deriving DecidableEq

/-- A parsed format template. -/
abbrev Template := List TItem

/-- The data mapping: writes prepend, the most recent binding of a key wins
(Python dict assignment). -/
abbrev Fields := List (String × PyVal)

/-- Python dict lookup over the write-history representation. -/
def lookupField (fs : Fields) (k : String) : Option PyVal :=
  match fs with
  | [] => Option.none
  | (k', v) :: rest => if k' = k then some v else lookupField rest k

/-- Python dict assignment data[k] = v. -/
def setField (fs : Fields) (k : String) (v : PyVal) : Fields := (k, v) :: fs

/-- The exceptions FormatWidgetMixin.__call__ (widgets.py 55-62) catches,
reports and re-raises: KeyError when the template references a key absent from
data (the spec's FormatFieldError) and TypeError when a value does not fit its
conversion (the spec's FormatTypeError). Each carries the offending template
and field map, mirroring the diagnostics printed to stderr before the
re-raise. -/
inductive FmtError where
  | fieldError (template : Template) (fields : Fields) (key : String)
  | typeMismatch (template : Template) (fields : Fields) (key : String)
deriving DecidableEq

/-- The template an error reports. -/
def FmtError.tpl : FmtError → Template
  | .fieldError t _ _ => t
  | .typeMismatch t _ _ => t

/-- The field map an error reports. -/
def FmtError.fieldMap : FmtError → Fields
  | .fieldError _ f _ => f
  | .typeMismatch _ f _ => f

/-- Substitution of one template item, `self.format % data` acting on a single
piece. -/
def renderItem (tpl : Template) (fs : Fields) : TItem → Except FmtError String
  | .lit t => .ok t
  | .ref k c =>
    match lookupField fs k, c with
    | Option.none, _ => .error (.fieldError tpl fs k)
    | some v, .s => .ok (pyStr v)
    | some v, .d =>
      match convInt v with
      | some t => .ok t
      | Option.none => .error (.typeMismatch tpl fs k)

/-- Left-to-right substitution of a list of template items; the first failure
propagates, as in Python's % operator. -/
def formatItems (tpl : Template) (fs : Fields) : List TItem → Except FmtError String
  | [] => .ok ""
  | it :: rest =>
    match renderItem tpl fs it with
    | .error e => .error e
    | .ok s =>
      match formatItems tpl fs rest with
      | .error e => .error e
      | .ok r => .ok (s ++ r)

/-- FormatWidgetMixin.__call__ (widgets.py 55-62): formats self.format % data;
on KeyError/TypeError the template and the data mapping are reported and the
error propagates. -/
def formatWidgetCall (tpl : Template) (fs : Fields) : Except FmtError String :=
  formatItems tpl fs tpl

/-- Whether an Except carries a success. -/
def exIsOk {α β : Type} : Except α β → Bool
  | .ok _ => true
  | .error _ => false

/-- Whether substituting this item fails: it references a key absent from the
field map, or the value does not fit the conversion. -/
def itemFails (fs : Fields) : TItem → Bool
  | .lit _ => false
  | .ref k c =>
    match lookupField fs k, c with
    | Option.none, _ => true
    | some _, .s => false
    | some v, .d => (convInt v).isNone

/-- Total per-item rendering, meaningful on items that do not fail. -/
def itemRender (fs : Fields) : TItem → String
  | .lit t => t
  | .ref k c =>
    match lookupField fs k, c with
    | Option.none, _ => ""
    | some v, .s => pyStr v
    | some v, .d => (convInt v).getD ""

/-- Concatenation of the per-item renderings. -/
def concatStr : List String → String
  | [] => ""
  | s :: rest => s ++ concatStr rest

/-! ### FormatLabel (widgets.py 280-308) -/

/-- Timer.format_time used as a FormatLabel transform: formats numeric
seconds; a non-numeric argument raises inside the transform (none), which
FormatLabel's bare except swallows. -/
def formatTimeVal : PyVal → Option PyVal
  | .int n => some (.str (timedeltaStr n))
  | .rat q => some (.str (timedeltaStr (pyTrunc q)))
  | .str _ => Option.none
  | .pyNone => Option.none

/-- The transform slot of a FormatLabel mapping entry: None (identity) or
Timer.format_time. -/
inductive FLTransform where
  | idT
  | timeT
deriving DecidableEq

/-- Application of a FormatLabel transform. -/
def applyFLTransform : FLTransform → PyVal → Option PyVal
  | .idT, v => some v
  | .timeT, v => formatTimeVal v

/-- FormatLabel.mapping (widgets.py 284-293), as (name, source key, transform)
entries. The source dict literal lists the key 'elapsed' twice; the later
entry ('total_seconds_elapsed', format_time) wins, Python dict semantics. -/
def formatLabelMapping : List (String × String × FLTransform) :=
  [("elapsed", "total_seconds_elapsed", .timeT),
   ("finished", "end_time", .idT),
   ("last_update", "last_update_time", .idT),
   ("max", "max_value", .idT),
   ("seconds", "seconds_elapsed", .idT),
   ("start", "start_time", .idT),
   ("value", "value", .idT)]

/-- One iteration of FormatLabel.__call__'s mapping loop (widgets.py 299-306):
data[name] = transform(data[key]), with any failure (missing source key or a
raising transform) swallowed by the bare except, leaving data unchanged. -/
def formatLabelStep (fs : Fields) (e : String × String × FLTransform) : Fields :=
  match lookupField fs e.2.1 with
  | Option.none => fs
  | some v =>
    match applyFLTransform e.2.2 v with
    | Option.none => fs
    | some w => setField fs e.1 w

/-- The data mapping after FormatLabel's per-field loop ran over all mapping
entries. -/
def formatLabelMapData (fs : Fields) : Fields :=
  formatLabelMapping.foldl formatLabelStep fs

/-- FormatLabel.__call__ (widgets.py 298-308): run the swallowing per-field
loop, then hand the mutated data to FormatWidgetMixin.__call__. -/
def formatLabelCall (tpl : Template) (fs : Fields) : Except FmtError String :=
  formatWidgetCall tpl (formatLabelMapData fs)

/-! ### Progress snapshot state read by the sampling / ETA / speed widgets -/

/-- The attributes of the calling ProgressBar that these widgets read:
progress.value, progress.previous_value, progress.min_value,
progress.max_value, the truthiness of progress.end_time, and
progress.last_update_time (as rational seconds since the epoch). -/
structure Progress where
  value : Int
  previousValue : Int
  minValue : Int
  maxValue : Int
  endTime : Bool
  lastUpdateTime : ℚ
deriving DecidableEq

/-- The entries of the data mapping that ETA and FileTransferSpeed read:
data['value'] and data['total_seconds_elapsed']. -/
structure DataMap where
  value : Int
  totalSecondsElapsed : ℚ
deriving DecidableEq

/-! ### SamplesMixin (widgets.py 128-152) -/

/-- The sample buffer pair a sampling widget keeps in progress.extra:
parallel lists of timestamps and values. -/
structure Samples where
  times : List ℚ
  values : List Int
deriving DecidableEq

/-- SamplesMixin.__call__'s buffer update (widgets.py 139-152): when the value
changed since the previous update, append (last_update_time, value) and drop
the oldest entry once the count exceeds the configured number of samples. -/
def samplesStep (numSamples : Nat) (value prev : Int) (t : ℚ) (s : Samples) : Samples :=
  if value ≠ prev then
    let times := s.times ++ [t]
    let values := s.values ++ [value]
    if numSamples < times.length then ⟨times.drop 1, values.drop 1⟩
    else ⟨times, values⟩
  else s

/-- SamplesMixin.__call__ reading its inputs from the progress object. -/
def samplesCall (numSamples : Nat) (p : Progress) (s : Samples) : Samples :=
  samplesStep numSamples p.value p.previousValue p.lastUpdateTime s

/-- Modelled from the spec: the driving ProgressBar object is not under src/
(only widgets.py is); per spec sections 3 and 6 the driver supplies the
snapshot, and its previous value field is the value of the preceding update.
A render trace is a list of (value, last_update_time) pairs; the previous
value threads through as the prior call's value, starting from the bar's
initial value. -/
def samplesTrace (numSamples : Nat) : Int → List (Int × ℚ) → Samples → Samples
  | _, [], s => s
  | prev, (v, t) :: rest, s =>
    samplesTrace numSamples v rest (samplesStep numSamples v prev t s)

/-- Invariant tying a buffer to the previous value threading through the
trace: parallel lists, capacity respected, no adjacent duplicate values, and
the newest recorded value (if any) is the previous value. -/
def bufferOk (numSamples : Nat) (prev : Int) (s : Samples) : Prop :=
  s.times.length = s.values.length ∧
  s.values.length ≤ numSamples ∧
  s.values.Chain' (· ≠ ·) ∧
  ∀ v, s.values.getLast? = some v → v = prev

/-! ### ETA and AdaptiveETA (widgets.py 155-188) -/

/-- The decimal string '%s' makes of the elapsed-seconds float, abstracted to
the exact rational's display; no claim below depends on it. -/
def showSeconds (q : ℚ) : String := toString q

/-- ETA._eta (widgets.py 158-165). Arithmetic is exact rational; the zero
divisor case (value = 0 but min_value nonzero raises ZeroDivisionError in
Python) is not exercised by any claim below. -/
def etaBody (p : Progress) (value : Int) (elapsed : ℚ) : String :=
  if value = p.minValue then "ETA:  --:--:--"
  else if p.endTime then "Time: " ++ showSeconds elapsed
  else "ETA: " ++ formatTime (elapsed * (p.maxValue : ℚ) / (value : ℚ) - elapsed)

/-- ETA.__call__ (widgets.py 167-170): self._eta(progress, data, data['value'],
data['total_seconds_elapsed']). -/
def etaCall (p : Progress) (d : DataMap) : String :=
  etaBody p d.value d.totalSecondsElapsed

/-- utils.timedelta_to_seconds applied to a difference of timestamps.
Modelled from the spec: utils.py is not under src/; timestamps are already
rational seconds here, so the conversion is the identity. -/
def timedeltaToSeconds (q : ℚ) : ℚ := q

/-- AdaptiveETA.__call__ (widgets.py 180-188): run the sampling step; when at
most one sample is held, fall back to ETA.__call__, else compute the ETA from
the sample window's value and time deltas. -/
def adaptiveEtaCall (numSamples : Nat) (p : Progress) (d : DataMap) (s : Samples) : String :=
  let s2 := samplesCall numSamples p s
  if s2.times.length ≤ 1 then etaCall p d
  else etaBody p (s2.values.getLastD 0 - s2.values.headD 0)
    (timedeltaToSeconds (s2.times.getLastD 0 - s2.times.headD 0))

/-! ### FileTransferSpeed / AdaptiveTransferSpeed input selection
(widgets.py 209-239) -/

/-- Python `a or b` for a numeric a and an optional (possibly None) numeric b:
a when truthy (nonzero), else b. -/
def pyOr (a : ℚ) (b : Option ℚ) : Option ℚ := if a ≠ 0 then some a else b

/-- FileTransferSpeed.__call__'s input selection (widgets.py 211-212):
value = data['value'] or value; elapsed = data['total_seconds_elapsed'] or
total_seconds_elapsed. Returns the effective (value, elapsed) pair the speed
computation then consumes (none models None reaching the epsilon guard). -/
def fileTransferSpeedInputs (d : DataMap) (value elapsed : Option ℚ) :
    Option ℚ × Option ℚ :=
  (pyOr (d.value : ℚ) value, pyOr d.totalSecondsElapsed elapsed)

/-- AdaptiveTransferSpeed.__call__ (widgets.py 229-239): run the sampling
step; with at most one sample pass (None, None) on, else pass the sample
window's deltas; FileTransferSpeed's input selection then decides what the
speed is computed from. -/
def adaptiveTransferSpeedInputs (numSamples : Nat) (p : Progress) (d : DataMap)
    (s : Samples) : Option ℚ × Option ℚ :=
  let s2 := samplesCall numSamples p s
  if s2.times.length ≤ 1 then fileTransferSpeedInputs d Option.none Option.none
  else fileTransferSpeedInputs d
    (some ((s2.values.getLastD 0 - s2.values.headD 0 : Int) : ℚ))
    (some (timedeltaToSeconds (s2.times.getLastD 0 - s2.times.headD 0)))

/-- The concrete progress state for the AdaptiveTransferSpeed evaluation:
value 100 unchanged since the previous update, not finished. -/
def progressC5 : Progress := ⟨100, 100, 0, 200, false, 2⟩

/-- The concrete data mapping for the AdaptiveTransferSpeed evaluation:
data['value'] = 100, data['total_seconds_elapsed'] = 10. -/
def dataC5 : DataMap := ⟨100, 10⟩

/-- The concrete pre-call sample buffer for the AdaptiveTransferSpeed
evaluation: samples (t=0, v=50) and (t=2, v=100). -/
def samplesC5 : Samples := ⟨[0, 2], [50, 100]⟩

/-! ### Bar (widgets.py 319-376) -/

/-- string_or_lambda (widgets.py 334-338) applied to a single-character
string border or fill and then evaluated on the data mapping: `input_ % data`.
A one-character string other than '%' formats to itself; a lone '%' is an
incomplete format and raises ValueError (none). -/
def pctChar (c : Char) : Option Char :=
  if c = '%' then Option.none else some c

/-- Python str.ljust over character lists. -/
def ljust (s : List Char) (w : Nat) (c : Char) : List Char :=
  s ++ List.replicate (w - s.length) c

/-- Python str.rjust over character lists. -/
def rjust (s : List Char) (w : Nat) (c : Char) : List Char :=
  List.replicate (w - s.length) c ++ s

/-- Bar.__init__._marker.__marker for a one-character string marker
(widgets.py 340-346): the marker repeated int(value / max_value * width)
times when max_value > 0, else empty. The float product is modelled by exact
floor division; for value ≤ max_value both stay within width. -/
def barMarker (marker : Char) (value maxValue width : Nat) : List Char :=
  if 0 < maxValue then List.replicate (value * width / maxValue) marker else []

/-- Bar.__call__ for a single-character configuration (widgets.py 362-376):
render the borders, subtract their widths, render the marker, pad with fill
(ljust when fill_left else rjust), concatenate. none models a ValueError
escaping from a '%' border or fill. -/
def barCall (marker left right fill : Char) (fillLeft : Bool)
    (value maxValue width : Nat) : Option (List Char) :=
  match pctChar left, pctChar right, pctChar fill with
  | some l, some r, some f =>
    let innerWidth := width - ([l].length + [r].length)
    let m := barMarker marker value maxValue innerWidth
    some ([l] ++ (if fillLeft then ljust m innerWidth f else rjust m innerWidth f) ++ [r])
  | _, _, _ => Option.none

/-! ### BouncingBar (widgets.py 397-419) -/

/-- BouncingBar.update's position arithmetic (widgets.py 409-411), where
width is the inner width after the borders were subtracted. Python % on a
positive modulus agrees with Int.emod. -/
def bouncingPosition (value : Int) (width : Int) : Int :=
  let position := value % (width * 2 - 1)
  if position > width then width * 2 - position else position

/-- A value held in a Bar attribute slot (self.left, self.right, self.fill,
self.marker): either a Python string or a callable (a closure built by
Bar.__init__ or a caller-supplied callable). -/
inductive BarAttr where
  | pyStr (s : List Char)
  | closure
deriving DecidableEq

/-- string_or_lambda (widgets.py 334-338) as a storage transform: a string
configuration is wrapped in a formatting closure and a callable is stored as
is, so the stored slot is a callable in every case. -/
def string_or_lambda_stored : BarAttr → BarAttr
  | .pyStr _ => .closure
  | .closure => .closure

/-- Bar.__init__._marker (widgets.py 340-352) as a storage transform: a
one-character string marker is wrapped in the __marker closure and a callable
is stored as is, so the stored slot is a callable in every case. -/
def marker_stored : BarAttr → BarAttr
  | .pyStr _ => .closure
  | .closure => .closure

/-- Python string repetition s * n (empty for non-positive n). -/
def pyRepeat (n : Int) (s : List Char) : List Char :=
  (List.replicate n.toNat s).flatten

/-- BouncingBar.update (widgets.py 399-419), faithful to the stored
attributes: update applies len() to self.left and self.right (line 404),
repeats self.marker and self.fill (lines 407, 412-413) and takes len() of
self.marker — all operations that raise TypeError (none) when the slot holds
a callable, which it does for every constructible instance. The position
arithmetic of lines 409-411 is bouncingPosition; it is reached only in the
hypothetical case of string-valued slots. -/
def bouncingBarUpdate (left marker right fill : BarAttr) (fillLeft : Bool)
    (finished : Bool) (value : Int) (width : Nat) : Option (List Char) :=
  match left, right with
  | .pyStr l, .pyStr r =>
    let innerWidth : Int := (width : Int) - ((l.length : Int) + (r.length : Int))
    if finished then
      match marker with
      | .pyStr m => some (l ++ pyRepeat innerWidth m ++ r)
      | .closure => Option.none
    else
      let position := bouncingPosition value innerWidth
      match fill, marker with
      | .pyStr f, .pyStr m =>
        let lpad := pyRepeat (position - 1) f
        let rpad := pyRepeat (innerWidth - (m.length : Int) - (lpad.length : Int)) f
        let pads := if fillLeft then (lpad, rpad) else (rpad, lpad)
        some (l ++ pads.1 ++ m ++ pads.2 ++ r)
      | _, _ => Option.none
  | _, _ => Option.none

/-- Rendering a BouncingBar through the widget protocol: the ProgressBar
invokes the widget's __call__, and BouncingBar (widgets.py 397) does not
override Bar.__call__, so the protocol render is Bar.__call__'s plain
proportional bar; update is never invoked by the protocol. -/
def bouncingBarRender (marker left right fill : Char) (fillLeft : Bool)
    (value maxValue width : Nat) : Option (List Char) :=
  barCall marker left right fill fillLeft value maxValue width

/-! ### SamplesMixin key computation (widgets.py 129-137) -/

/-- SamplesMixin.__init__'s key computation (widgets.py 131):
(self.__class__.__name__ or key_prefix) + '_'. Python `or` takes the class
name whenever it is truthy (non-empty); none models the TypeError of
None + '_' when both are falsy. -/
def sampleKeyBase (className : String) (keyArg : Option String) : Option String :=
  if className = "" then keyArg.map (fun k => k ++ "_")
  else some (className ++ "_")

/-- get_sample_times' key in progress.extra (widgets.py 133-134). -/
def sampleTimesKey (base : String) : String := base ++ "sample_times"

/-- get_sample_values' key in progress.extra (widgets.py 136-137). -/
def sampleValuesKey (base : String) : String := base ++ "sample_values"

/-! ### Helper lemmas -/

theorem ljust_length (s : List Char) (w : Nat) (c : Char) (h : s.length ≤ w) :
    (ljust s w c).length = w := by
  simp [ljust]
  omega

theorem rjust_length (s : List Char) (w : Nat) (c : Char) (h : s.length ≤ w) :
    (rjust s w c).length = w := by
  simp [rjust]
  omega

theorem barMarker_length_le (marker : Char) (value maxValue width : Nat)
    (hv : value ≤ maxValue) : (barMarker marker value maxValue width).length ≤ width := by
  unfold barMarker
  by_cases hm : 0 < maxValue
  · rw [if_pos hm]
    simp only [List.length_replicate]
    calc value * width / maxValue ≤ maxValue * width / maxValue :=
          Nat.div_le_div_right (Nat.mul_le_mul_right width hv)
      _ = width := Nat.mul_div_cancel_left width hm
  · rw [if_neg hm]
    exact Nat.zero_le width

theorem renderItem_ok (tpl : Template) (fs : Fields) (it : TItem)
    (h : itemFails fs it = false) :
    renderItem tpl fs it = .ok (itemRender fs it) := by
  cases it with
  | lit t => rfl
  | ref k c =>
    unfold renderItem itemRender
    unfold itemFails at h
    cases hk : lookupField fs k with
    | none => simp [hk] at h
    | some v =>
      cases c with
      | s => simp [hk]
      | d =>
        cases hc : convInt v with
        | none => simp [hk, hc] at h
        | some t => simp [hk, hc]

theorem renderItem_fails (tpl : Template) (fs : Fields) (it : TItem)
    (h : itemFails fs it = true) :
    ∃ e, renderItem tpl fs it = .error e := by
  cases it with
  | lit t => simp [itemFails] at h
  | ref k c =>
    simp only [itemFails] at h
    cases hk : lookupField fs k with
    | none =>
      refine ⟨FmtError.fieldError tpl fs k, ?_⟩
      simp [renderItem, hk]
    | some v =>
      rw [hk] at h
      cases c with
      | s => simp at h
      | d =>
        cases hc : convInt v with
        | none =>
          refine ⟨FmtError.typeMismatch tpl fs k, ?_⟩
          simp [renderItem, hk, hc]
        | some t => simp [hc, Option.isNone] at h

theorem renderItem_error (tpl : Template) (fs : Fields) (it : TItem) (e : FmtError)
    (h : renderItem tpl fs it = .error e) :
    itemFails fs it = true ∧
    ((∃ k, e = .fieldError tpl fs k ∧ lookupField fs k = Option.none) ∨
     (∃ k v, e = .typeMismatch tpl fs k ∧ lookupField fs k = some v ∧
       convInt v = Option.none)) := by
  cases it with
  | lit t => simp [renderItem] at h
  | ref k c =>
    simp only [renderItem] at h
    split at h
    · rename_i hk
      simp only [Except.error.injEq] at h
      exact ⟨by simp [itemFails, hk], Or.inl ⟨k, h.symm, hk⟩⟩
    · simp at h
    · rename_i v hk
      split at h
      · simp at h
      · rename_i hc
        simp only [Except.error.injEq] at h
        exact ⟨by simp [itemFails, hk, hc], Or.inr ⟨k, v, h.symm, hk, hc⟩⟩

theorem formatItems_ok_iff (tpl : Template) (fs : Fields) (l : List TItem) :
    exIsOk (formatItems tpl fs l) = true ↔
      l.all (fun it => !itemFails fs it) = true := by
  induction l with
  | nil => simp [formatItems, exIsOk]
  | cons it rest ih =>
    rw [List.all_cons]
    cases hr : renderItem tpl fs it with
    | error e =>
      have hf := (renderItem_error tpl fs it e hr).1
      simp [formatItems, hr, exIsOk, hf]
    | ok s =>
      have hf : itemFails fs it = false := by
        cases h : itemFails fs it
        · rfl
        · obtain ⟨e, he⟩ := renderItem_fails tpl fs it h
          rw [hr] at he
          cases he
      rw [hf]
      cases hrest : formatItems tpl fs rest with
      | error e =>
        rw [hrest] at ih
        simp only [formatItems, hr, hrest]
        simpa [exIsOk] using ih
      | ok r =>
        rw [hrest] at ih
        simp only [formatItems, hr, hrest]
        simpa [exIsOk] using ih

theorem formatItems_error_mem (tpl : Template) (fs : Fields) (l : List TItem)
    (e : FmtError) (h : formatItems tpl fs l = .error e) :
    ∃ it ∈ l, renderItem tpl fs it = .error e := by
  induction l with
  | nil => simp [formatItems] at h
  | cons it rest ih =>
    unfold formatItems at h
    cases hr : renderItem tpl fs it with
    | error e' =>
      rw [hr] at h
      simp only [Except.error.injEq] at h
      exact ⟨it, List.mem_cons_self it rest, by rw [hr, h]⟩
    | ok s =>
      rw [hr] at h
      cases hrest : formatItems tpl fs rest with
      | error e' =>
        rw [hrest] at h
        simp only [Except.error.injEq] at h
        obtain ⟨it', hmem, hit'⟩ := ih (by rw [hrest, h])
        exact ⟨it', List.mem_cons_of_mem it hmem, hit'⟩
      | ok r =>
        rw [hrest] at h
        cases h

theorem formatItems_ok_val (tpl : Template) (fs : Fields) (l : List TItem)
    (s : String) (h : formatItems tpl fs l = .ok s) :
    s = concatStr (l.map (itemRender fs)) := by
  induction l generalizing s with
  | nil =>
    unfold formatItems at h
    simp only [Except.ok.injEq] at h
    simp [concatStr, h.symm]
  | cons it rest ih =>
    unfold formatItems at h
    cases hr : renderItem tpl fs it with
    | error e =>
      rw [hr] at h
      cases h
    | ok s1 =>
      rw [hr] at h
      cases hrest : formatItems tpl fs rest with
      | error e =>
        rw [hrest] at h
        cases h
      | ok r =>
        rw [hrest] at h
        simp only [Except.ok.injEq] at h
        have hf : itemFails fs it = false := by
          cases hfc : itemFails fs it
          · rfl
          · obtain ⟨e, he⟩ := renderItem_fails tpl fs it hfc
            rw [hr] at he
            cases he
        have hit : s1 = itemRender fs it := by
          have h2 := renderItem_ok tpl fs it hf
          rw [hr] at h2
          exact Except.ok.inj h2
        rw [List.map_cons]
        unfold concatStr
        rw [← h, hit, ih r hrest]

theorem lookupField_cons (k' : String) (v : PyVal) (fs : Fields) (k : String) :
    lookupField ((k', v) :: fs) k = if k' = k then some v else lookupField fs k := rfl

theorem lookup_formatLabelStep_ne (fs : Fields) (e : String × String × FLTransform)
    (k : String) (hk : k ≠ e.1) :
    lookupField (formatLabelStep fs e) k = lookupField fs k := by
  unfold formatLabelStep
  split
  · rfl
  · split
    · rfl
    · simp only [setField, lookupField_cons]
      rw [if_neg (fun hc => hk hc.symm)]

theorem samplesStep_bufferOk (numSamples : Nat) (v prev : Int) (t : ℚ) (s : Samples)
    (h : bufferOk numSamples prev s) :
    bufferOk numSamples v (samplesStep numSamples v prev t s) := by
  obtain ⟨hlen, hcap, hchain, hlast⟩ := h
  unfold samplesStep
  by_cases hv : v = prev
  · rw [if_neg (by simpa using hv)]
    exact ⟨hlen, hcap, hchain, fun w hw => (hlast w hw).trans hv.symm⟩
  · rw [if_pos hv]
    have hchain2 : (s.values ++ [v]).Chain' (· ≠ ·) := by
      refine List.Chain'.append hchain (List.chain'_singleton v) ?_
      intro x hx y hy
      simp only [List.head?_cons, Option.mem_def, Option.some.injEq] at hy
      subst hy
      rw [Option.mem_def] at hx
      rw [hlast x hx]
      exact fun hc => hv hc.symm
    by_cases hover : numSamples < (s.times ++ [t]).length
    · rw [if_pos hover]
      refine ⟨by simp [hlen], ?_, ?_, ?_⟩
      · simp only [List.length_drop, List.length_append, List.length_cons, List.length_nil]
        omega
      · show (List.drop 1 (s.values ++ [v])).Chain' (· ≠ ·)
        rw [List.drop_one]
        exact hchain2.tail
      · intro w hw
        cases hsv : s.values with
        | nil =>
          rw [hsv] at hw
          simp at hw
        | cons a as =>
          rw [hsv] at hw
          simp only [List.cons_append, List.drop_succ_cons, List.drop_zero] at hw
          rw [List.getLast?_concat] at hw
          exact (Option.some.injEq _ _ ▸ hw).symm
    · rw [if_neg hover]
      refine ⟨by simp [hlen], ?_, hchain2, ?_⟩
      · simp only [List.length_append, List.length_cons, List.length_nil]
        simp only [List.length_append, List.length_cons, List.length_nil, not_lt, hlen] at hover
        omega
      · intro w hw
        rw [List.getLast?_concat] at hw
        exact (Option.some.injEq _ _ ▸ hw).symm

theorem samplesTrace_bufferOk (numSamples : Nat) (trace : List (Int × ℚ))
    (prev : Int) (s : Samples) (h : bufferOk numSamples prev s) :
    ∃ p, bufferOk numSamples p (samplesTrace numSamples prev trace s) := by
  induction trace generalizing prev s with
  | nil => exact ⟨prev, h⟩
  | cons vt rest ih =>
    exact ih vt.1 _ (samplesStep_bufferOk numSamples vt.1 prev vt.2 s h)

/-! ### Claim theorems -/

/-- C2: across any sequence of render calls against one bar instance (the
driver threads previous_value as the prior call's value), the sample buffer a
sampling widget keeps never exceeds the configured number of samples and its
recorded values never repeat in adjacent positions: a sample is appended only
when the value changed, and the oldest entry is evicted once the count passes
the capacity. -/
theorem samples_buffer_invariant (numSamples : Nat) (v0 : Int)
    (trace : List (Int × ℚ)) :
    (samplesTrace numSamples v0 trace ⟨[], []⟩).times.length ≤ numSamples ∧
    (samplesTrace numSamples v0 trace ⟨[], []⟩).values.length ≤ numSamples ∧
    (samplesTrace numSamples v0 trace ⟨[], []⟩).values.Chain' (· ≠ ·) := by
  have h0 : bufferOk numSamples v0 (⟨[], []⟩ : Samples) := by
    refine ⟨rfl, Nat.zero_le _, List.chain'_nil, ?_⟩
    intro v hv
    simp at hv
  obtain ⟨p, hlen, hcap, hchain, _⟩ :=
    samplesTrace_bufferOk numSamples trace v0 ⟨[], []⟩ h0
  exact ⟨hlen ▸ hcap, hcap, hchain⟩

/-- C1, counterexample: the claim quantifies over every single-character
string border and fill, but a lone '%' fill is an incomplete format, so
string_or_lambda's `input_ % data` raises ValueError and no string at all is
returned for the render at width 4 with value 1, max_value 2. -/
theorem bar_pct_fill_raises :
    barCall '#' '|' '|' '%' true 1 2 4 = Option.none := by rfl

/-- C1, amended: for a Bar whose single-character marker, borders and fill
avoid the format character '%', every render at width at least 2 against a
snapshot with 0 <= value <= max_value and max_value positive returns a string
of length exactly the width: the borders, plus the marker run of length
floor(value * (width - 2) / max_value) padded with fill to the inner width,
left-justified when fill_left and right-justified otherwise. -/
theorem bar_elastic_width_amended (marker left right fill : Char) (fillLeft : Bool)
    (value maxValue width : Nat)
    (hl : left ≠ '%') (hr : right ≠ '%') (hf : fill ≠ '%')
    (hv : value ≤ maxValue) (hm : 0 < maxValue) (hw : 2 ≤ width) :
    ∃ s, barCall marker left right fill fillLeft value maxValue width = some s ∧
      s.length = width ∧
      s = [left] ++
        (if fillLeft then ljust (barMarker marker value maxValue (width - 2)) (width - 2) fill
         else rjust (barMarker marker value maxValue (width - 2)) (width - 2) fill) ++
        [right] := by
  have hml := barMarker_length_le marker value maxValue (width - 2) hv
  refine ⟨_, ?_, ?_, rfl⟩
  · unfold barCall pctChar
    rw [if_neg hl, if_neg hr, if_neg hf]
    rfl
  · cases fillLeft
    · show ([left] ++ rjust (barMarker marker value maxValue (width - 2)) (width - 2) fill ++
        [right]).length = width
      simp only [List.length_append, List.length_cons, List.length_nil,
        rjust_length _ _ _ hml]
      omega
    · show ([left] ++ ljust (barMarker marker value maxValue (width - 2)) (width - 2) fill ++
        [right]).length = width
      simp only [List.length_append, List.length_cons, List.length_nil,
        ljust_length _ _ _ hml]
      omega

/-- C1, witness for the amended theorem at marker '#', borders '|', fill ' ',
value 5 of 10, width 20. -/
theorem bar_elastic_width_amended_inst :
    ∃ s, barCall '#' '|' '|' ' ' true 5 10 20 = some s ∧
      s.length = 20 ∧
      s = ['|'] ++
        (if true then ljust (barMarker '#' 5 10 (20 - 2)) (20 - 2) ' '
         else rjust (barMarker '#' 5 10 (20 - 2)) (20 - 2) ' ') ++
        ['|'] :=
  bar_elastic_width_amended '#' '|' '|' ' ' true 5 10 20 (by decide) (by decide)
    (by decide) (by decide) (by decide) (by decide)

/-- C7, counterexample: the claimed output "|##########          |" is 22
characters, but at total width 20 the borders consume 2 of the 20 columns, so
the render is not the claimed string. -/
theorem bar_scenario_string_false :
    barCall '#' '|' '|' ' ' true 5 10 20 ≠
      some ("|##########          |".toList) := by decide

/-- C7, amended: at total width 20 with marker '#', borders '|', fill ' ',
value 5, max_value 10, the borders consume 2 columns and the marker run is
floor(5 / 10 * 18) = 9, so the Bar renders "|#########         |" (9 markers
then 9 fill spaces between the borders, 20 characters in all). -/
theorem bar_scenario_amended :
    barCall '#' '|' '|' ' ' true 5 10 20 = some ("|#########         |".toList) := by
  decide

/-- C3: whenever data['value'] equals progress.min_value, ETA renders the
literal "ETA:  --:--:--" (two spaces after the colon), whatever the elapsed
time, the end-time flag and max_value are. -/
theorem eta_at_min_literal (p : Progress) (d : DataMap) (h : d.value = p.minValue) :
    etaCall p d = "ETA:  --:--:--" := by
  unfold etaCall etaBody
  rw [if_pos h]

/-- C3, witness: a finished snapshot with min_value 3, max_value 100, elapsed
42 seconds and current value 3. -/
theorem eta_at_min_literal_inst :
    (⟨3, 42⟩ : DataMap).value = (⟨5, 5, 3, 100, true, 0⟩ : Progress).minValue ∧
      etaCall ⟨5, 5, 3, 100, true, 0⟩ ⟨3, 42⟩ = "ETA:  --:--:--" :=
  ⟨rfl, eta_at_min_literal ⟨5, 5, 3, 100, true, 0⟩ ⟨3, 42⟩ rfl⟩

/-- C4: when the sample buffer holds at most one sample after the current
recording step, AdaptiveETA's output is exactly plain ETA's output on the
identical snapshot. -/
theorem adaptiveEta_fallback_eq (numSamples : Nat) (p : Progress) (d : DataMap)
    (s : Samples) (h : (samplesCall numSamples p s).times.length ≤ 1) :
    adaptiveEtaCall numSamples p d s = etaCall p d := by
  unfold adaptiveEtaCall
  rw [if_pos h]

/-- C4, witness: an empty buffer and an unchanged value record nothing, so the
buffer stays below two samples and the adaptive widget falls back. -/
theorem adaptiveEta_fallback_eq_inst :
    (samplesCall 10 ⟨0, 0, 0, 10, false, 1⟩ ⟨[], []⟩).times.length ≤ 1 ∧
      adaptiveEtaCall 10 ⟨0, 0, 0, 10, false, 1⟩ ⟨0, 5⟩ ⟨[], []⟩ =
        etaCall ⟨0, 0, 0, 10, false, 1⟩ ⟨0, 5⟩ :=
  ⟨by decide, adaptiveEta_fallback_eq 10 ⟨0, 0, 0, 10, false, 1⟩ ⟨0, 5⟩ ⟨[], []⟩ (by decide)⟩

/-- C5: with two samples (t=0, v=50) and (t=2, v=100) in the buffer and an
unchanged current value, the sample window's deltas are value 50 over 2
seconds, yet AdaptiveTransferSpeed's render feeds the speed computation the
snapshot totals (value 100, elapsed 10): `value = data['value'] or value`
prefers the truthy totals and only falls back to the window deltas when the
totals are zero, contradicting the widget's docstring "based on the last X
samples". -/
theorem adaptiveSpeed_totals_precedence :
    adaptiveTransferSpeedInputs 10 progressC5 dataC5 samplesC5 = (some 100, some 10) ∧
    (samplesCall 10 progressC5 samplesC5).times.length = 2 ∧
    ((samplesCall 10 progressC5 samplesC5).values.getLastD 0 -
      (samplesCall 10 progressC5 samplesC5).values.headD 0) = 50 ∧
    ((samplesCall 10 progressC5 samplesC5).times.getLastD 0 -
      (samplesCall 10 progressC5 samplesC5).times.headD 0) = 2 ∧
    ((100 : ℚ), (10 : ℚ)) ≠ ((50 : ℚ), (2 : ℚ)) := by
  refine ⟨by decide, by decide, by decide, ?_, by decide⟩
  simp [samplesCall, samplesStep, progressC5, samplesC5]

/-- C6 (code_bug): the claim and the spec demand a bouncing triangle-wave
marker, but no constructible BouncingBar ever bounces. Bar.__init__ stores
closures in self.left, self.marker, self.right and self.fill, so
BouncingBar.update raises TypeError for every input the moment it takes
len() of the borders; and update is anyway unreachable through the widget
protocol, which invokes the inherited Bar.__call__: at the failing input
(width 10, value 3, max_value 10, not finished) the render is the plain
proportional bar "|##      |". -/
theorem bouncingBar_never_bounces :
    (∀ (cl cm cr cf : BarAttr) (fillLeft finished : Bool) (value : Int) (width : Nat),
      bouncingBarUpdate (string_or_lambda_stored cl) (marker_stored cm)
        (string_or_lambda_stored cr) (string_or_lambda_stored cf)
        fillLeft finished value width = Option.none) ∧
    bouncingBarRender '#' '|' '|' ' ' true 3 10 10 =
      some ("|##      |".toList) := by
  constructor
  · intro cl cm cr cf fillLeft finished value width
    cases cl <;> cases cr <;> rfl
  · decide

/-- C10: the key_prefix argument of SamplesMixin.__init__ is dead: the class
name is non-empty, Python's `or` therefore always selects it, and the keys
used in progress.extra are the class name plus '_sample_times' and
'_sample_values' for every choice of key_prefix, so two sampling widgets of
the same class on the same bar read and write one shared buffer. -/
theorem samples_key_independent (className : String) (h : className ≠ "")
    (k₁ k₂ : Option String) :
    sampleKeyBase className k₁ = sampleKeyBase className k₂ ∧
    sampleKeyBase className k₁ = some (className ++ "_") ∧
    (sampleKeyBase className k₁).map sampleTimesKey =
      some (className ++ "_sample_times") ∧
    (sampleKeyBase className k₁).map sampleValuesKey =
      some (className ++ "_sample_values") := by
  unfold sampleKeyBase sampleTimesKey sampleValuesKey
  rw [if_neg h, if_neg h]
  refine ⟨rfl, rfl, ?_, ?_⟩
  · simp [String.append_assoc]
  · simp [String.append_assoc]

/-- C10, witness: the class name "AdaptiveETA" with key_prefix absent versus
key_prefix "custom". -/
theorem samples_key_independent_inst :
    "AdaptiveETA" ≠ "" ∧
    (sampleKeyBase "AdaptiveETA" Option.none = sampleKeyBase "AdaptiveETA" (some "custom") ∧
     sampleKeyBase "AdaptiveETA" Option.none = some ("AdaptiveETA" ++ "_") ∧
     (sampleKeyBase "AdaptiveETA" Option.none).map sampleTimesKey =
       some ("AdaptiveETA" ++ "_sample_times") ∧
     (sampleKeyBase "AdaptiveETA" Option.none).map sampleValuesKey =
       some ("AdaptiveETA" ++ "_sample_values")) :=
  ⟨by decide, samples_key_independent "AdaptiveETA" (by decide) Option.none (some "custom")⟩

/-- C9: rendering a format template against a field map fails exactly when
the template references a key absent from the map or a value incompatible
with its conversion; on failure the error carries the offending template and
field map (the reported diagnostics) and propagates, a FormatFieldError comes
only from a missing key and a FormatTypeError only from an incompatible
value; on success the substituted string is returned. -/
theorem format_render_contract (tpl : Template) (fs : Fields) :
    (exIsOk (formatWidgetCall tpl fs) = true ↔
      tpl.all (fun it => !itemFails fs it) = true) ∧
    (∀ e, formatWidgetCall tpl fs = .error e →
      FmtError.tpl e = tpl ∧ FmtError.fieldMap e = fs) ∧
    (∀ s, formatWidgetCall tpl fs = .ok s →
      s = concatStr (tpl.map (itemRender fs))) ∧
    (∀ t' f' k, formatWidgetCall tpl fs = .error (.fieldError t' f' k) →
      lookupField fs k = Option.none) ∧
    (∀ t' f' k, formatWidgetCall tpl fs = .error (.typeMismatch t' f' k) →
      ∃ v, lookupField fs k = some v ∧ convInt v = Option.none) := by
  refine ⟨formatItems_ok_iff tpl fs tpl, ?_, ?_, ?_, ?_⟩
  · intro e he
    obtain ⟨it, _, hit⟩ := formatItems_error_mem tpl fs tpl e he
    obtain ⟨_, hcase⟩ := renderItem_error tpl fs it e hit
    rcases hcase with ⟨k, hek, _⟩ | ⟨k, v, hek, _, _⟩ <;>
      simp [hek, FmtError.tpl, FmtError.fieldMap]
  · exact fun s hs => formatItems_ok_val tpl fs tpl s hs
  · intro t' f' k he
    obtain ⟨it, _, hit⟩ := formatItems_error_mem tpl fs tpl _ he
    obtain ⟨_, hcase⟩ := renderItem_error tpl fs it _ hit
    rcases hcase with ⟨k', hek, hk'⟩ | ⟨k', v, hek, _, _⟩
    · obtain ⟨_, _, h3⟩ := FmtError.fieldError.inj hek
      rw [h3]
      exact hk'
    · cases hek
  · intro t' f' k he
    obtain ⟨it, _, hit⟩ := formatItems_error_mem tpl fs tpl _ he
    obtain ⟨_, hcase⟩ := renderItem_error tpl fs it _ hit
    rcases hcase with ⟨k', hek, _⟩ | ⟨k', v, hek, hk', hv⟩
    · cases hek
    · obtain ⟨_, _, h3⟩ := FmtError.typeMismatch.inj hek
      rw [h3]
      exact ⟨v, hk', hv⟩

/-- C8, counterexample: FormatLabel on data holding only 'value' swallows the
failed mapping of the 'finished' field (no 'end_time' in data), but a
template that then references '%(finished)s' raises a KeyError out of the
final substitution instead of silently omitting the field and returning a
string. -/
theorem formatLabel_missing_field_raises :
    exIsOk (formatLabelCall
      [TItem.lit "v=", TItem.ref "value" Conv.s, TItem.ref "finished" Conv.s]
      [("value", PyVal.int 5)]) = false := by decide

/-- C8, amended: FormatLabel's per-field mapping loop is total — an error
mapping one derived field is swallowed and leaves the data unchanged, and
fields outside the seven derived names pass through untouched — but the final
substitution keeps the renderer's fail-fast contract: the call returns a
string exactly when every field the template references resolves in the
post-mapping data, and then it is the substituted string; a template
referencing a field whose mapping failed raises. -/
theorem formatLabel_amended (tpl : Template) (fs : Fields) :
    (exIsOk (formatLabelCall tpl fs) = true ↔
      tpl.all (fun it => !itemFails (formatLabelMapData fs) it) = true) ∧
    (∀ s, formatLabelCall tpl fs = .ok s →
      s = concatStr (tpl.map (itemRender (formatLabelMapData fs)))) ∧
    (∀ k, k ≠ "elapsed" → k ≠ "finished" → k ≠ "last_update" → k ≠ "max" →
      k ≠ "seconds" → k ≠ "start" → k ≠ "value" →
      lookupField (formatLabelMapData fs) k = lookupField fs k) := by
  refine ⟨formatItems_ok_iff tpl (formatLabelMapData fs) tpl,
    fun s hs => formatItems_ok_val tpl (formatLabelMapData fs) tpl s hs, ?_⟩
  intro k h1 h2 h3 h4 h5 h6 h7
  show lookupField (List.foldl formatLabelStep fs formatLabelMapping) k = lookupField fs k
  simp only [formatLabelMapping, List.foldl_cons, List.foldl_nil]
  rw [lookup_formatLabelStep_ne _ _ _ h7, lookup_formatLabelStep_ne _ _ _ h6,
    lookup_formatLabelStep_ne _ _ _ h5, lookup_formatLabelStep_ne _ _ _ h4,
    lookup_formatLabelStep_ne _ _ _ h3, lookup_formatLabelStep_ne _ _ _ h2,
    lookup_formatLabelStep_ne _ _ _ h1]

end PyProgress
